import Mathlib

/-!
Shallow embedding of the Sengled Wi-Fi bulb client (`pkg/client.py`).

The Python program is embedded as pure Lean functions over explicit state.
JSON-decoded values are modelled by the inductive `Json`; Python run-time
exceptions that the embedded code can raise (`TypeError`, `KeyError`,
`ValueError`, `AttributeError`) are modelled by `PyError`, and fallible
operations return `Except PyError _` or carry an `Option PyError` outcome
alongside the mutated state.  Network and broker responses are passed in as
explicit arguments (the environment), and the network calls a method performs
are returned as a trace.
-/

set_option autoImplicit false

namespace Sengled

/-- A JSON value as produced by Python's `json.loads`. -/
inductive Json where
  | null
  | bool (b : Bool)
  | num (n : Int)
  | str (s : String)
  | arr (elems : List Json)
  | obj (fields : List (String × Json))

/-- The Python exceptions the embedded code can raise. -/
inductive PyError where
  | typeError
  | keyError
  | valueError
  | attributeError
  deriving DecidableEq, Repr

/-- A Python value as returned by the bulb's read accessors: an `int`, a
`bool`, a raw stored value returned verbatim, or an opaque object such as a
bound method (identified by its tag). -/
inductive PyValue where
  | int (n : Int)
  | bool (b : Bool)
  | json (v : Json)
  | obj (tag : String)

/-- One entry of a device's `attributeList`: Python dict
`{'name': ..., 'value': ...}`.  Names are strings; values start out as
strings but `_update_status` may store any JSON value into them, so the
value is a `Json`. -/
structure Attr where
  name : String
  value : Json

/-- The `_attribute_update_callback` field of a `SengledBulb`.  The
constructor never assigns it, so reading it before
`set_attribute_update_callback` raises `AttributeError` (`unset`); once
assigned it holds a Python object whose truthiness is `truthy`. -/
inductive CallbackField where
  | unset
  | assigned (truthy : Bool)

/-- Python equality of a JSON-decoded value against a Python `str`:
true exactly when the value is that string.  (Numbers, booleans, `None`,
lists and dicts never compare equal to a `str`.) -/
def pyEqStr (v : Json) (s : String) : Bool :=
  match v with
  | .str t => t == s
  | _ => false

/-- First-match lookup in a Python dict modelled as a field list
(`json.loads` produces unique keys, so first match is dict lookup). -/
def dictGet : List (String × Json) → String → Option Json
  | [], _ => none
  | (k, v) :: fs, key => if k = key then some v else dictGet fs key

/-- Key-membership test in a Python dict modelled as a field list. -/
def dictHas (fs : List (String × Json)) (key : String) : Bool :=
  fs.any (fun p => p.1 = key)

/-- Python `needle in v` for a `str` needle: key membership for a dict,
substring test for a `str`, element membership (via `==`) for a list;
`TypeError` for numbers, booleans and `None`. -/
def pyContains (needle : String) : Json → Except PyError Bool
  | .obj fs => .ok (dictHas fs needle)
  | .str s => .ok (decide (needle.toList <:+: s.toList))
  | .arr xs => .ok (xs.any (fun x => pyEqStr x needle))
  | _ => .error .typeError

/-- Python `v[key]` for a `str` key: dict lookup (`KeyError` when absent);
`TypeError` on any other value (string and list indices must be integers). -/
def pyIndexStr : Json → String → Except PyError Json
  | .obj fs, key =>
    match dictGet fs key with
    | some v => .ok v
    | none => .error .keyError
  | _, _ => .error .typeError

/-- Python `for x in v`: the elements of a list, the keys of a dict, the
one-character strings of a `str`; `TypeError` for numbers, booleans, `None`. -/
def pyIterate : Json → Except PyError (List Json)
  | .arr xs => .ok xs
  | .obj fs => .ok (fs.map (fun p => Json.str p.1))
  | .str s => .ok (s.toList.map (fun c => Json.str (String.singleton c)))
  | _ => .error .typeError

/-- Python `int(s, 10)` on a string: optional sign followed by at least one
decimal digit (surrounding whitespace stripped); `none` models `ValueError`. -/
def pyParseInt (s : String) : Option Int :=
  let t := s.trim
  let core := if t.startsWith "-" || t.startsWith "+" then t.drop 1 else t
  if core.length > 0 && core.toList.all Char.isDigit then
    some (if t.startsWith "-" then -(core.toNat!) else (core.toNat! : Int))
  else
    none

/-- Python `int(v, 10)` on a stored attribute value: parses a `str`
(`ValueError` when non-numeric); any non-string raises `TypeError`
(with an explicit base, `int` only accepts strings). -/
def pyIntOfJson (v : Json) : Except PyError PyValue :=
  match v with
  | .str s =>
    match pyParseInt s with
    | some n => .ok (.int n)
    | none => .error .valueError
  | _ => .error .typeError

/-- The device info object returned by the server's directory fetch
(`deviceList` entry). -/
structure DevRecord where
  deviceUuid : String
  category : String
  typeCode : String
  attributeList : List Attr

/-- The state of a `SengledBulb` instance: the fields set by `__init__`
plus the (initially unset) `_attribute_update_callback`.  The constructor
also subscribes `wifielement/<uuid>/status` on the owning client; that side
effect is modelled in `SengledClient.addDevice`. -/
structure Bulb where
  uuid : String
  category : String
  typeCode : String
  attributes : List Attr
  cb : CallbackField

/-- `SengledBulb.__init__` as a pure record constructor:
`_attribute_update_callback` is not assigned, hence `.unset`. -/
def mkBulb (info : DevRecord) : Bulb :=
  { uuid := info.deviceUuid
    category := info.category
    typeCode := info.typeCode
    attributes := info.attributeList
    cb := .unset }

namespace SengledBulb

/-- The first attribute of the list with the given name (each accessor's
`for attr in self._attributes: if attr['name'] == n: return ...` loop). -/
def findAttr : List Attr → String → Option Json
  | [], _ => none
  | a :: rest, n => if a.name = n then some a.value else findAttr rest n

/-- `SengledBulb.brightness`: first `brightness` attribute parsed with
`int(_, 10)`, else `0`. -/
def brightness (al : List Attr) : Except PyError PyValue :=
  match findAttr al "brightness" with
  | some v => pyIntOfJson v
  | none => .ok (.int 0)

/-- `SengledBulb.consumption_time`: first `consumptionTime` attribute parsed
with `int(_, 10)`, else `0`. -/
def consumption_time (al : List Attr) : Except PyError PyValue :=
  match findAttr al "consumptionTime" with
  | some v => pyIntOfJson v
  | none => .ok (.int 0)

/-- `SengledBulb.rssi`: first `deviceRssi` attribute parsed with
`int(_, 10)`, else `0`. -/
def rssi (al : List Attr) : Except PyError PyValue :=
  match findAttr al "deviceRssi" with
  | some v => pyIntOfJson v
  | none => .ok (.int 0)

/-- `SengledBulb.identify_no`: first `identifyNO` attribute verbatim,
else `''`. -/
def identify_no (al : List Attr) : Except PyError PyValue :=
  match findAttr al "identifyNO" with
  | some v => .ok (.json v)
  | none => .ok (.json (.str ""))

/-- `SengledBulb.ip`: first `ip` attribute verbatim, else `''`. -/
def ip (al : List Attr) : Except PyError PyValue :=
  match findAttr al "ip" with
  | some v => .ok (.json v)
  | none => .ok (.json (.str ""))

/-- `SengledBulb.name`: first `name` attribute verbatim, else `''`. -/
def name (al : List Attr) : Except PyError PyValue :=
  match findAttr al "name" with
  | some v => .ok (.json v)
  | none => .ok (.json (.str ""))

/-- `SengledBulb.online`: first `online` attribute compared with `== '1'`,
else `False`. -/
def online (al : List Attr) : Except PyError PyValue :=
  match findAttr al "online" with
  | some v => .ok (.bool (pyEqStr v "1"))
  | none => .ok (.bool false)

/-- `SengledBulb.product_code`: first `product_code` attribute verbatim,
else `''`. -/
def product_code (al : List Attr) : Except PyError PyValue :=
  match findAttr al "product_code" with
  | some v => .ok (.json v)
  | none => .ok (.json (.str ""))

/-- `SengledBulb.save_flag`: first `save_flag` attribute compared with
`== '1'`, else `False`. -/
def save_flag (al : List Attr) : Except PyError PyValue :=
  match findAttr al "save_flag" with
  | some v => .ok (.bool (pyEqStr v "1"))
  | none => .ok (.bool false)

/-- `SengledBulb.start_time`: first `start_time` attribute verbatim,
else `''`. -/
def start_time (al : List Attr) : Except PyError PyValue :=
  match findAttr al "start_time" with
  | some v => .ok (.json v)
  | none => .ok (.json (.str ""))

/-- `SengledBulb.support_attributes`: first `support_attributes` attribute
verbatim, else `''`. -/
def support_attributes (al : List Attr) : Except PyError PyValue :=
  match findAttr al "support_attributes" with
  | some v => .ok (.json v)
  | none => .ok (.json (.str ""))

/-- `SengledBulb.switch`: first `switch` attribute compared with `== '1'`,
else `False`. -/
def switch (al : List Attr) : Except PyError PyValue :=
  match findAttr al "switch" with
  | some v => .ok (.bool (pyEqStr v "1"))
  | none => .ok (.bool false)

/-- `SengledBulb.time_zone`: first `time_zone` attribute verbatim,
else `''`. -/
def time_zone (al : List Attr) : Except PyError PyValue :=
  match findAttr al "time_zone" with
  | some v => .ok (.json v)
  | none => .ok (.json (.str ""))

/-- `SengledBulb.type_code`: first `type_code` attribute verbatim, else the
constructor's `_type_code` field (note: not the empty string). -/
def type_code (b : Bulb) : Except PyError PyValue :=
  match findAttr b.attributes "type_code" with
  | some v => .ok (.json v)
  | none => .ok (.json (.str b.typeCode))

/-- `SengledBulb.version`: first `version` attribute verbatim, else `''`. -/
def version (al : List Attr) : Except PyError PyValue :=
  match findAttr al "version" with
  | some v => .ok (.json v)
  | none => .ok (.json (.str ""))

/-- `SengledBulb._attribute_to_property`: the fixed camelCase → snake_case
translation table; unknown names map to themselves. -/
def attribute_to_property (attr : String) : String :=
  if attr = "consumptionTime" then "consumption_time"
  else if attr = "deviceRssi" then "rssi"
  else if attr = "identifyNO" then "identify_no"
  else if attr = "productCode" then "product_code"
  else if attr = "saveFlag" then "save_flag"
  else if attr = "startTime" then "start_time"
  else if attr = "supportAttributes" then "support_attributes"
  else if attr = "timeZone" then "time_zone"
  else if attr = "typeCode" then "type_code"
  else attr

/-- Python `getattr(bulb, n)`: the class properties (which are evaluated on
access and may raise), the `uuid`/`category` properties, the instance
fields set by `__init__`, the methods, and the callback field (reading it
while unset raises `AttributeError`).  Any other name raises
`AttributeError`. -/
def pyGetattr (b : Bulb) (n : String) : Except PyError PyValue :=
  if n = "brightness" then brightness b.attributes
  else if n = "consumption_time" then consumption_time b.attributes
  else if n = "rssi" then rssi b.attributes
  else if n = "identify_no" then identify_no b.attributes
  else if n = "ip" then ip b.attributes
  else if n = "name" then name b.attributes
  else if n = "online" then online b.attributes
  else if n = "product_code" then product_code b.attributes
  else if n = "save_flag" then save_flag b.attributes
  else if n = "start_time" then start_time b.attributes
  else if n = "support_attributes" then support_attributes b.attributes
  else if n = "switch" then switch b.attributes
  else if n = "time_zone" then time_zone b.attributes
  else if n = "type_code" then type_code b
  else if n = "version" then version b.attributes
  else if n = "uuid" then .ok (.json (.str b.uuid))
  else if n = "category" then .ok (.json (.str b.category))
  else if n = "_uuid" then .ok (.json (.str b.uuid))
  else if n = "_category" then .ok (.json (.str b.category))
  else if n = "_type_code" then .ok (.json (.str b.typeCode))
  else if n = "_attributes" then .ok (.obj "_attributes")
  else if n = "_client" then .ok (.obj "_client")
  else if n = "_attribute_update_callback" then
    match b.cb with
    | .unset => .error .attributeError
    | .assigned t => .ok (.bool t)
  else if n = "toggle" || n = "set_brightness"
      || n = "set_attribute_update_callback" then .ok (.obj n)
  else .error .attributeError

/-- First attribute whose `name` compares `==` to the entry's `type` value,
as index plus name (`for attr in self._attributes: if attr['name'] ==
status['type']`). -/
def findMatch (typVal : Json) : List Attr → Option (Nat × String)
  | [] => none
  | a :: rest =>
    if pyEqStr typVal a.name then some (0, a.name)
    else (findMatch typVal rest).map (fun p => (p.1 + 1, p.2))

/-- Result of running `_update_status`: the bulb state afterwards (in-place
mutations persist even when an exception is raised part-way), the observer
notifications issued, and the exception that escaped the handler, if any. -/
structure UpdateOutcome where
  bulb : Bulb
  notifs : List (String × PyValue)
  error : Option PyError

/-- One iteration of `for status in data`: the `'type'`/`'dn'` membership
guards (short-circuit `or`), the `dn` comparison against `self.uuid`, the
inner attribute loop with its in-place `attr['value'] = status['value']`
assignment (RHS evaluated first, so a missing `value` key raises before
mutating), and the callback block, which first reads the possibly-unset
`_attribute_update_callback` field, then guards on `hasattr` (false only on
`AttributeError`; other exceptions propagate) before notifying. -/
def processEntry (b : Bulb) (status : Json) :
    Bulb × Option (String × PyValue) × Option PyError :=
  match pyContains "type" status with
  | .error e => (b, none, some e)
  | .ok false => (b, none, none)
  | .ok true =>
    match pyContains "dn" status with
    | .error e => (b, none, some e)
    | .ok false => (b, none, none)
    | .ok true =>
      match pyIndexStr status "dn" with
      | .error e => (b, none, some e)
      | .ok dnVal =>
        if pyEqStr dnVal b.uuid then
          match pyIndexStr status "type" with
          | .error e => (b, none, some e)
          | .ok typVal =>
            match findMatch typVal b.attributes with
            | none => (b, none, none)
            | some (i, aname) =>
              match pyIndexStr status "value" with
              | .error e => (b, none, some e)
              | .ok newVal =>
                let b2 : Bulb :=
                  { b with attributes :=
                      b.attributes.set i { name := aname, value := newVal } }
                match b2.cb with
                | .unset => (b2, none, some .attributeError)
                | .assigned truthy =>
                  if truthy then
                    let pname := SengledBulb.attribute_to_property aname
                    match SengledBulb.pyGetattr b2 pname with
                    | .error .attributeError => (b2, none, none)
                    | .error e => (b2, none, some e)
                    | .ok v => (b2, some (pname, v), none)
                  else (b2, none, none)
        else (b, none, none)

/-- The `for status in data` loop: entries processed left to right, each one
threading the mutated bulb; a raised exception aborts the loop but keeps the
mutations made so far. -/
def processEntries : Bulb → List Json → UpdateOutcome
  | b, [] => ⟨b, [], none⟩
  | b, e :: rest =>
    match processEntry b e with
    | (b2, _, some err) => ⟨b2, [], some err⟩
    | (b2, some n, none) =>
      let r := processEntries b2 rest
      ⟨r.bulb, n :: r.notifs, r.error⟩
    | (b2, none, none) => processEntries b2 rest

/-- `SengledBulb._update_status`.  The payload argument is the result of
`json.loads(message)`: `none` models the `ValueError` branch (malformed
JSON), which returns silently; a decoded value is then iterated. -/
def update_status (b : Bulb) (payload : Option Json) : UpdateOutcome :=
  match payload with
  | none => ⟨b, [], none⟩
  | some data =>
    match pyIterate data with
    | .error e => ⟨b, [], some e⟩
    | .ok entries => processEntries b entries

/-- The command object built by `toggle` / `set_brightness` before
`json.dumps`: `{'dn': ..., 'type': ..., 'value': ..., 'time': ...}`. -/
structure MqttCommand where
  dn : String
  type : String
  value : String
  time : Int

/-- `SengledBulb.toggle(on)`: command published to
`wifielement/<uuid>/update` with type `switch` and value `'1'`/`'0'`
(`now` is `int(time.time() * 1000)`). -/
def toggleCommand (uuid : String) (onState : Bool) (now : Int) : MqttCommand :=
  { dn := uuid
    type := "switch"
    value := if onState then "1" else "0"
    time := now }

/-- `SengledBulb.set_brightness(level)`: `level = max(min(level, 100), 0)`,
then the command published to `wifielement/<uuid>/update` with type
`brightness` and the clamped level rendered by `str(...)`. -/
def set_brightness (uuid : String) (level : Int) (now : Int) : MqttCommand :=
  let level := max (min level 100) 0
  { dn := uuid
    type := "brightness"
    value := toString level
    time := now }

end SengledBulb

/-- The `_mqtt_server` dict: realtime endpoint host, port and path. -/
structure MqttServer where
  host : String
  port : Int
  path : String

/-- A network or broker interaction performed by a client method. -/
inductive NetCall where
  | probe
  | auth
  | serverInfo
  | deviceList
  | mqttConnect
  | mqttReconnect
  | subscribeReq (topic : String)
  deriving DecidableEq, Repr

namespace SengledClient

/-- The mutable state of a `SengledClient`: session token, resolved realtime
endpoint, whether `_mqtt_client` is non-`None`, the cached device-proxy
list, and the `_subscribed` registry (a Python dict: insertion-ordered,
unique keys; modelled as an association list, handlers identified by the
owning bulb's uuid). -/
structure State where
  jsessionId : Option String
  mqttServer : MqttServer
  mqttClientExists : Bool
  devices : List Bulb
  subscribed : List (String × String)

/-- Python dict assignment `d[k] = v`: updates the value in place when the
key exists (keeping its position), otherwise appends the new entry. -/
def dictInsert (d : List (String × String)) (k v : String) :
    List (String × String) :=
  if d.any (fun p => p.1 = k) then
    d.map (fun p => if p.1 = k then (k, v) else p)
  else
    d ++ [(k, v)]

/-- First-match lookup in the `_subscribed` registry (`self._subscribed[t]`;
keys are unique, so first match is dict lookup). -/
def regGet : List (String × String) → String → Option String
  | [], _ => none
  | (k, v) :: fs, key => if k = key then some v else regGet fs key

/-- `SengledClient._subscribe_mqtt(topic, callback)`: `False` with no
request when `_mqtt_client is None`; otherwise a subscribe request is
issued, and only on broker success (`MQTT_ERR_SUCCESS`) is the registry
entry recorded and `True` returned.  `brokerOk` is the broker's verdict per
topic; the trace lists the requests issued. -/
def subscribe_mqtt (c : State) (brokerOk : String → Bool)
    (topic handler : String) : State × Bool × List NetCall :=
  if !c.mqttClientExists then
    (c, false, [])
  else if brokerOk topic then
    ({ c with subscribed := dictInsert c.subscribed topic handler },
      true, [.subscribeReq topic])
  else
    (c, false, [.subscribeReq topic])

/-- The `for topic in self._subscribed` loop of `_reinitialize_mqtt`:
iterates over the registry's keys (a snapshot — the loop only reassigns
existing keys, so Python's dict-iteration rules permit it), reading the
current handler for each and re-subscribing it.  A key missing from the
current registry is skipped (unreachable: the loop never removes keys). -/
def resubLoop (brokerOk : String → Bool) :
    List String → State → State × List NetCall
  | [], c => (c, [])
  | t :: ts, c =>
    match regGet c.subscribed t with
    | some h =>
      let r := subscribe_mqtt c brokerOk t h
      let rest := resubLoop brokerOk ts r.1
      (rest.1, r.2.2 ++ rest.2)
    | none => resubLoop brokerOk ts c

/-- `SengledClient._reinitialize_mqtt()`: `False` when `_mqtt_client is
None` or no session; otherwise stop, disconnect, re-apply the websocket
options, reconnect, restart the loop, then replay every registry entry as a
fresh subscribe call. -/
def reinitialize_mqtt (c : State) (brokerOk : String → Bool) :
    State × Bool × List NetCall :=
  if !c.mqttClientExists || c.jsessionId.isNone then
    (c, false, [])
  else
    let r := resubLoop brokerOk (c.subscribed.map Prod.fst) c
    (r.1, true, .mqttReconnect :: r.2)

/-- `SengledClient._initialize_mqtt()`: `False` when no session; otherwise
creates the MQTT client, connects and starts the loop. -/
def initialize_mqtt (c : State) : State × Bool × List NetCall :=
  if c.jsessionId.isNone then
    (c, false, [])
  else
    ({ c with mqttClientExists := true }, true, [.mqttConnect])

/-- The suffix after the first occurrence of `://` (`none` if absent). -/
def afterSchemeSep : List Char → Option (List Char)
  | ':' :: '/' :: '/' :: rest => some rest
  | [] => none
  | _ :: rest => afterSchemeSep rest

/-- The characters before the first `/`, and the rest starting at that `/`. -/
def splitAtSlash : List Char → List Char × List Char
  | [] => ([], [])
  | c :: cs =>
    if c = '/' then ([], c :: cs)
    else
      let r := splitAtSlash cs
      (c :: r.1, r.2)

/-- `urllib.parse.urlparse` restricted to what `_get_server_info` uses, for
URIs of the shape `scheme://netloc/path`: the netloc is the substring
between `://` and the following `/`, the path is the rest (a URI with no
`://` has an empty netloc and is all path). -/
def urlparseNetlocPath (u : String) : String × String :=
  match afterSchemeSep u.toList with
  | none => ("", u)
  | some rest =>
    let p := splitAtSlash rest
    (String.mk p.1, String.mk p.2)

/-- The response of `getServerInfo.json`: HTTP success flag and the
`inceptionAddr` field (`none` = missing). -/
structure InfoResp where
  statusOk : Bool
  inceptionAddr : Option String

/-- `SengledClient._get_server_info()`: no-op without a session; on HTTP
failure or a missing/empty `inceptionAddr`, returns leaving `_mqtt_server`
untouched.  Otherwise parses the URI: with a `:` in the netloc the host,
port (`int(_, 10)`, whose failure raises after the host was already
assigned) and path are taken from it; without one the port defaults to 443.
The trace records whether the request was issued. -/
def get_server_info (c : State) (resp : InfoResp) :
    State × List NetCall × Option PyError :=
  if c.jsessionId.isNone then
    (c, [], none)
  else if !resp.statusOk then
    (c, [.serverInfo], none)
  else
    match resp.inceptionAddr with
    | none => (c, [.serverInfo], none)
    | some addr =>
      if addr = "" then
        (c, [.serverInfo], none)
      else
        let p := urlparseNetlocPath addr
        let netloc := p.1
        if netloc.toList.contains ':' then
          -- `url.netloc.split(':')[0]` and `...split(':')[1]`
          let host := String.mk (netloc.toList.takeWhile (fun ch => ch ≠ ':'))
          let portStr := String.mk
            (((netloc.toList.dropWhile (fun ch => ch ≠ ':')).drop 1).takeWhile
              (fun ch => ch ≠ ':'))
          match pyParseInt portStr with
          | some port =>
            ({ c with mqttServer := { host := host, port := port, path := p.2 } },
              [.serverInfo], none)
          | none =>
            -- `self._mqtt_server['host']` is assigned before the port parse
            -- raises ValueError, so the host mutation persists.
            ({ c with mqttServer := { c.mqttServer with host := host } },
              [.serverInfo], some .valueError)
        else
          ({ c with mqttServer := { host := netloc, port := 443, path := p.2 } },
            [.serverInfo], none)

/-- `SengledBulb.__init__`'s side effect on the owning client: construct
the proxy and subscribe `wifielement/<uuid>/status` with its
`_update_status` handler (identified here by the bulb's uuid). -/
def addDevice (c : State) (brokerOk : String → Bool) (d : DevRecord) :
    State × List NetCall :=
  let b := mkBulb d
  let r := subscribe_mqtt c brokerOk
    ("wifielement/" ++ d.deviceUuid ++ "/status") d.deviceUuid
  ({ r.1 with devices := r.1.devices ++ [b] }, r.2.2)

/-- The `for d in data['deviceList']` loop of `get_devices`: a record whose
`deviceUuid` already has a proxy in the cache is skipped; otherwise a new
proxy is constructed (subscribing its status topic) and appended. -/
def deviceLoop (brokerOk : String → Bool) :
    State → List DevRecord → State × List NetCall
  | c, [] => (c, [])
  | c, d :: ds =>
    if c.devices.any (fun dev => dev.uuid = d.deviceUuid) then
      deviceLoop brokerOk c ds
    else
      let r := addDevice c brokerOk d
      let rest := deviceLoop brokerOk r.1 ds
      (rest.1, r.2 ++ rest.2)

/-- The response of `device/list.json`: HTTP success flag and the
`deviceList` field (`none` = missing; an empty list is falsy and also takes
the early return). -/
structure DirResp where
  statusOk : Bool
  deviceList : Option (List DevRecord)

/-- `SengledClient.get_devices(force_update)`: returns the cache without a
session, or when the cache is non-empty and no refresh is forced, or on any
fetch failure; otherwise merges the fetched records into the cache, never
removing existing proxies.  The returned list is `_devices` (the state's
device list). -/
def get_devices (c : State) (force_update : Bool) (brokerOk : String → Bool)
    (resp : DirResp) : State × List NetCall :=
  if c.jsessionId.isNone then
    (c, [])
  else if c.devices.length > 0 && !force_update then
    (c, [])
  else if !resp.statusOk then
    (c, [.deviceList])
  else
    match resp.deviceList with
    | none => (c, [.deviceList])
    | some [] => (c, [.deviceList])
    | some ds =>
      let r := deviceLoop brokerOk c ds
      (r.1, .deviceList :: r.2)

/-- The response of `isSessionTimeout.json`: HTTP success flag and whether
the payload carries `'info'` equal to `'OK'`. -/
structure ProbeResp where
  statusOk : Bool
  infoOk : Bool

/-- `SengledClient._is_session_timeout()`: `True` (timed out) without a
token — no request; otherwise one probe request, timed out unless the HTTP
status is success and the payload says `OK`. -/
def is_session_timeout (c : State) (resp : ProbeResp) : Bool × List NetCall :=
  match c.jsessionId with
  | none => (true, [])
  | some _ => (!(resp.statusOk && resp.infoOk), [.probe])

/-- The response of `AuthenCross.json`: HTTP success flag and the
`jsessionId` field (`none` = missing; `some ""` is falsy). -/
structure AuthResp where
  statusOk : Bool
  jsessionId : Option String

/-- The Python value returned by `login()`: the bare `return` on the
valid-session path yields `None`; the other paths return a `bool`. -/
inductive LoginRet where
  | noneRet
  | retBool (b : Bool)
  deriving DecidableEq, Repr

/-- The outcome of `login()`: state afterwards, return value (absent when
an exception escaped), the network calls performed, and the escaped
exception, if any. -/
structure LoginOutcome where
  state : State
  ret : Option LoginRet
  calls : List NetCall
  error : Option PyError

/-- `SengledClient.login()`: with an existing token whose probe reports the
session still valid, the bare `return` (value `None`) — nothing else runs.
Otherwise authenticate; on HTTP failure or a missing/empty token return
`False` leaving state untouched; on success store the token, resolve the
endpoint, initialize or re-initialize the MQTT channel, force-refresh the
directory, and return `True`. -/
def login (c : State) (probe : ProbeResp) (auth : AuthResp) (info : InfoResp)
    (dir : DirResp) (brokerOk : String → Bool) : LoginOutcome :=
  let probeCalls : List NetCall :=
    match c.jsessionId with
    | some _ => (is_session_timeout c probe).2
    | none => []
  if c.jsessionId.isSome && !(is_session_timeout c probe).1 then
    { state := c, ret := some .noneRet, calls := probeCalls, error := none }
  else
    let calls := probeCalls ++ [.auth]
    if !auth.statusOk then
      { state := c, ret := some (.retBool false), calls := calls, error := none }
    else
      match auth.jsessionId with
      | none =>
        { state := c, ret := some (.retBool false), calls := calls, error := none }
      | some tok =>
        if tok = "" then
          { state := c, ret := some (.retBool false), calls := calls,
            error := none }
        else
          let c1 : State := { c with jsessionId := some tok }
          let si := get_server_info c1 info
          let calls := calls ++ si.2.1
          match si.2.2 with
          | some e =>
            { state := si.1, ret := none, calls := calls, error := some e }
          | none =>
            let c2 := si.1
            let mq :=
              if !c2.mqttClientExists then
                let r := initialize_mqtt c2
                (r.1, r.2.2)
              else
                let r := reinitialize_mqtt c2 brokerOk
                (r.1, r.2.2)
            let calls := calls ++ mq.2
            let gd := get_devices mq.1 true brokerOk dir
            { state := gd.1, ret := some (.retBool true),
              calls := calls ++ gd.2, error := none }

/-- Iterated `_reinitialize_mqtt()`: the client state after `n` successive
reconnects. -/
def reinitN (c : State) (brokerOk : String → Bool) : Nat → State
  | 0 => c
  | n + 1 => (reinitialize_mqtt (reinitN c brokerOk n) brokerOk).1

/-- A sequence of `get_devices` calls (force flag and server response per
call), threading the client state. -/
def refreshSeq (brokerOk : String → Bool) :
    State → List (Bool × DirResp) → State
  | c, [] => c
  | c, (f, r) :: rest => refreshSeq brokerOk (get_devices c f brokerOk r).1 rest

/-- The device identifiers of the cached proxy list. -/
def uuids (ds : List Bulb) : List String := ds.map (fun b => b.uuid)

end SengledClient

/-- A status entry that the `for status in data` loop skips at its
membership guards: a JSON object lacking a `type` key, or lacking a `dn`
key. -/
def skippableEntry : Json → Bool
  | .obj fs => !(dictHas fs "type") || !(dictHas fs "dn")
  | _ => false

theorem findAttr_eq_none {al : List Attr} {n : String}
    (h : al.any (fun a => a.name = n) = false) :
    SengledBulb.findAttr al n = none := by
  induction al with
  | nil => rfl
  | cons a rest ih =>
    simp only [List.any_cons, Bool.or_eq_false_iff, decide_eq_false_iff_not] at h
    simp [SengledBulb.findAttr, h.1, ih h.2]

theorem dictHas_of_get {fs : List (String × Json)} {k : String} {v : Json}
    (h : dictGet fs k = some v) : dictHas fs k = true := by
  induction fs with
  | nil => simp [dictGet] at h
  | cons p rest ih =>
    by_cases hk : p.1 = k
    · simp [dictHas, List.any_cons, hk]
    · simp only [dictGet] at h
      rw [if_neg hk] at h
      have hr := ih h
      simp only [dictHas, List.any_cons, Bool.or_eq_true]
      right
      simpa [dictHas] using hr

/-- C3: `set_brightness(level)` publishes the decimal string of `level`
clamped to `[0, 100]` as the command's value; in particular the inputs
`-10, 0, 55, 100, 150` publish `"0", "0", "55", "100", "100"`. -/
theorem set_brightness_clamps (uuid : String) (level now : Int) :
    (SengledBulb.set_brightness uuid level now).value
        = toString (max (min level 100) 0)
      ∧ 0 ≤ max (min level 100) 0
      ∧ max (min level 100) 0 ≤ 100
      ∧ (SengledBulb.set_brightness uuid (-10) now).value = "0"
      ∧ (SengledBulb.set_brightness uuid 0 now).value = "0"
      ∧ (SengledBulb.set_brightness uuid 55 now).value = "55"
      ∧ (SengledBulb.set_brightness uuid 100 now).value = "100"
      ∧ (SengledBulb.set_brightness uuid 150 now).value = "100" := by
  refine ⟨rfl, le_max_right _ _, max_le (min_le_right _ _) (by norm_num),
    ?_, ?_, ?_, ?_, ?_⟩ <;> rfl

/-- C1: with an existing session token and a probe reporting the session
still valid, `login()` leaves the client state untouched and performs no
network call beyond the probe — but its bare `return` yields `None`, not
the `True` its docstring promises. -/
theorem login_valid_session_returns_none :
    SengledClient.login
      { jsessionId := some "sess"
        mqttServer :=
          { host := "us-mqtt.cloud.sengled.com", port := 443, path := "/mqtt" }
        mqttClientExists := true
        devices := []
        subscribed := [("wifielement/b1/status", "b1")] }
      { statusOk := true, infoOk := true }
      { statusOk := true, jsessionId := some "tok2" }
      { statusOk := true, inceptionAddr := some "wss://x.example.com/mqtt" }
      { statusOk := true, deviceList := none }
      (fun _ => true)
      = { state :=
            { jsessionId := some "sess"
              mqttServer :=
                { host := "us-mqtt.cloud.sengled.com", port := 443,
                  path := "/mqtt" }
              mqttClientExists := true
              devices := []
              subscribed := [("wifielement/b1/status", "b1")] }
          ret := some .noneRet
          calls := [.probe]
          error := none }
    ∧ some SengledClient.LoginRet.noneRet
        ≠ some (SengledClient.LoginRet.retBool true) := by
  exact ⟨rfl, by simp⟩

/-- C4 as stated is false: `type_code` is a string accessor, yet with
`'type_code'` absent from the attribute list it falls back to the
constructor-stored `_type_code` field (here `'wifia19-L'`), not the empty
string. -/
theorem type_code_default_not_empty :
    SengledBulb.type_code
        { uuid := "u1", category := "wifielement", typeCode := "wifia19-L"
          attributes := [], cb := .unset }
      = .ok (.json (.str "wifia19-L"))
  ∧ SengledBulb.type_code
        { uuid := "u1", category := "wifielement", typeCode := "wifia19-L"
          attributes := [], cb := .unset }
      ≠ .ok (.json (.str "")) := by
  refine ⟨rfl, ?_⟩
  intro h
  simp [SengledBulb.type_code, SengledBulb.findAttr] at h

/-- C4 amended: every typed accessor returns its documented default when
its attribute name is absent — `0` for the integer accessors, `False` for
the boolean ones, `''` for the string accessors `name`, `ip`,
`identify_no`, `product_code`, `start_time`, `support_attributes`,
`time_zone` and `version`, while `type_code` falls back to the
constructor-stored `_type_code` field rather than the empty string — and
the boolean accessors read `True` exactly when the stored string value
equals `"1"`. -/
theorem accessor_defaults (al : List Attr) :
    (al.any (fun a => a.name = "brightness") = false →
        SengledBulb.brightness al = .ok (.int 0))
  ∧ (al.any (fun a => a.name = "consumptionTime") = false →
        SengledBulb.consumption_time al = .ok (.int 0))
  ∧ (al.any (fun a => a.name = "deviceRssi") = false →
        SengledBulb.rssi al = .ok (.int 0))
  ∧ (al.any (fun a => a.name = "online") = false →
        SengledBulb.online al = .ok (.bool false))
  ∧ (al.any (fun a => a.name = "save_flag") = false →
        SengledBulb.save_flag al = .ok (.bool false))
  ∧ (al.any (fun a => a.name = "switch") = false →
        SengledBulb.switch al = .ok (.bool false))
  ∧ (al.any (fun a => a.name = "name") = false →
        SengledBulb.name al = .ok (.json (.str "")))
  ∧ (al.any (fun a => a.name = "ip") = false →
        SengledBulb.ip al = .ok (.json (.str "")))
  ∧ (al.any (fun a => a.name = "identifyNO") = false →
        SengledBulb.identify_no al = .ok (.json (.str "")))
  ∧ (al.any (fun a => a.name = "product_code") = false →
        SengledBulb.product_code al = .ok (.json (.str "")))
  ∧ (al.any (fun a => a.name = "start_time") = false →
        SengledBulb.start_time al = .ok (.json (.str "")))
  ∧ (al.any (fun a => a.name = "support_attributes") = false →
        SengledBulb.support_attributes al = .ok (.json (.str "")))
  ∧ (al.any (fun a => a.name = "time_zone") = false →
        SengledBulb.time_zone al = .ok (.json (.str "")))
  ∧ (al.any (fun a => a.name = "version") = false →
        SengledBulb.version al = .ok (.json (.str "")))
  ∧ (∀ s, SengledBulb.findAttr al "online" = some (.str s) →
        SengledBulb.online al = .ok (.bool (s == "1")))
  ∧ (∀ s, SengledBulb.findAttr al "save_flag" = some (.str s) →
        SengledBulb.save_flag al = .ok (.bool (s == "1")))
  ∧ (∀ s, SengledBulb.findAttr al "switch" = some (.str s) →
        SengledBulb.switch al = .ok (.bool (s == "1")))
  ∧ (∀ b : Bulb, b.attributes.any (fun a => a.name = "type_code") = false →
        SengledBulb.type_code b = .ok (.json (.str b.typeCode))) := by
  refine ⟨?_, ?_, ?_, ?_, ?_, ?_, ?_, ?_, ?_, ?_, ?_, ?_, ?_, ?_, ?_, ?_, ?_,
    ?_⟩
  · intro h
    simp [SengledBulb.brightness, findAttr_eq_none h]
  · intro h
    simp [SengledBulb.consumption_time, findAttr_eq_none h]
  · intro h
    simp [SengledBulb.rssi, findAttr_eq_none h]
  · intro h
    simp [SengledBulb.online, findAttr_eq_none h]
  · intro h
    simp [SengledBulb.save_flag, findAttr_eq_none h]
  · intro h
    simp [SengledBulb.switch, findAttr_eq_none h]
  · intro h
    simp [SengledBulb.name, findAttr_eq_none h]
  · intro h
    simp [SengledBulb.ip, findAttr_eq_none h]
  · intro h
    simp [SengledBulb.identify_no, findAttr_eq_none h]
  · intro h
    simp [SengledBulb.product_code, findAttr_eq_none h]
  · intro h
    simp [SengledBulb.start_time, findAttr_eq_none h]
  · intro h
    simp [SengledBulb.support_attributes, findAttr_eq_none h]
  · intro h
    simp [SengledBulb.time_zone, findAttr_eq_none h]
  · intro h
    simp [SengledBulb.version, findAttr_eq_none h]
  · intro s h
    simp [SengledBulb.online, h, pyEqStr]
  · intro s h
    simp [SengledBulb.save_flag, h, pyEqStr]
  · intro s h
    simp [SengledBulb.switch, h, pyEqStr]
  · intro b h
    simp [SengledBulb.type_code, findAttr_eq_none h]

/-- Witness for the amended C4 at concrete stores: an empty attribute list
yields the integer, boolean and string defaults, a stored `"1"` makes
`online` true, a stored `"0"` makes `switch` false, and `type_code` of a
bulb with no attributes falls back to its constructor-stored type code. -/
theorem accessor_defaults_witness :
    SengledBulb.brightness [] = .ok (.int 0)
  ∧ SengledBulb.online [] = .ok (.bool false)
  ∧ SengledBulb.name [] = .ok (.json (.str ""))
  ∧ SengledBulb.online [{ name := "online", value := .str "1" }]
      = .ok (.bool true)
  ∧ SengledBulb.switch [{ name := "switch", value := .str "0" }]
      = .ok (.bool false)
  ∧ SengledBulb.type_code
        { uuid := "u1", category := "wifielement", typeCode := "wifia19-L"
          attributes := [], cb := .unset }
      = .ok (.json (.str "wifia19-L")) := by
  refine ⟨(accessor_defaults []).1 rfl,
    (accessor_defaults []).2.2.2.1 rfl,
    (accessor_defaults []).2.2.2.2.2.2.1 rfl, ?_, ?_, ?_⟩
  · have h :=
      (accessor_defaults
        [{ name := "online", value := .str "1" }]).2.2.2.2.2.2.2.2.2.2.2.2.2.2.1
        "1" rfl
    simpa using h
  · have h :=
      (accessor_defaults
        [{ name := "switch",
           value := .str "0" }]).2.2.2.2.2.2.2.2.2.2.2.2.2.2.2.2.1
        "0" rfl
    simpa using h
  · exact (accessor_defaults []).2.2.2.2.2.2.2.2.2.2.2.2.2.2.2.2.2
      { uuid := "u1", category := "wifielement", typeCode := "wifia19-L"
        attributes := [], cb := .unset } rfl

theorem processEntry_skippable {b : Bulb} {e : Json}
    (h : skippableEntry e = true) :
    SengledBulb.processEntry b e = (b, none, none) := by
  match e with
  | .obj fs =>
    simp only [skippableEntry, Bool.or_eq_true, Bool.not_eq_true'] at h
    rcases h with ht | hd
    · simp [SengledBulb.processEntry, pyContains, ht]
    · cases hht : dictHas fs "type" with
      | false => simp [SengledBulb.processEntry, pyContains, hht]
      | true => simp [SengledBulb.processEntry, pyContains, hht, hd]
  | .null => simp [skippableEntry] at h
  | .bool b' => simp [skippableEntry] at h
  | .num n => simp [skippableEntry] at h
  | .str s => simp [skippableEntry] at h
  | .arr xs => simp [skippableEntry] at h

theorem processEntries_skippable {b : Bulb} {entries : List Json}
    (h : entries.all skippableEntry = true) :
    SengledBulb.processEntries b entries = ⟨b, [], none⟩ := by
  induction entries with
  | nil => rfl
  | cons e rest ih =>
    simp only [List.all_cons, Bool.and_eq_true] at h
    rw [SengledBulb.processEntries, processEntry_skippable h.1]
    exact ih h.2

/-- C2 as stated is false: a payload that decodes to the JSON number `5`
makes the handler raise `TypeError` (iterating a non-sequence), and a
status entry matching the device and an existing attribute but lacking its
`value` field makes it raise `KeyError`. -/
theorem malformed_payload_raises :
    (SengledBulb.update_status
        { uuid := "u1", category := "wifielement", typeCode := "T"
          attributes := [{ name := "brightness", value := .str "50" }]
          cb := .assigned true }
        (some (.num 5))).error = some .typeError
  ∧ (SengledBulb.update_status
        { uuid := "u1", category := "wifielement", typeCode := "T"
          attributes := [{ name := "brightness", value := .str "50" }]
          cb := .assigned true }
        (some (.arr
          [.obj [("dn", .str "u1"), ("type", .str "brightness")]]))).error
      = some .keyError := by
  exact ⟨rfl, rfl⟩

/-- C2 amended: a payload that is not parseable JSON is discarded without
exception and without mutating the store, and entry objects lacking a
`type` or `dn` field are skipped harmlessly; however payloads decoding to a
non-iterable JSON value raise `TypeError`, and an entry matching the device
and an existing attribute but missing its `value` field raises `KeyError`
(see the counterexample). -/
theorem malformed_payload_discarded (b : Bulb) (entries : List Json)
    (h : entries.all skippableEntry = true) :
    SengledBulb.update_status b none = ⟨b, [], none⟩
  ∧ SengledBulb.update_status b (some (.arr entries)) = ⟨b, [], none⟩ := by
  exact ⟨rfl, processEntries_skippable h⟩

/-- Witness for the amended C2 at a concrete bulb: an unparseable payload
and an array of entries with no `type` field both leave the bulb unchanged
with no exception. -/
theorem malformed_payload_discarded_witness :
    SengledBulb.update_status
        { uuid := "u1", category := "c", typeCode := "T", attributes := []
          cb := .unset }
        none
      = ⟨{ uuid := "u1", category := "c", typeCode := "T", attributes := []
           cb := .unset }, [], none⟩
  ∧ SengledBulb.update_status
        { uuid := "u1", category := "c", typeCode := "T", attributes := []
          cb := .unset }
        (some (.arr [.obj [("x", .null)]]))
      = ⟨{ uuid := "u1", category := "c", typeCode := "T", attributes := []
           cb := .unset }, [], none⟩ := by
  exact malformed_payload_discarded _ [.obj [("x", .null)]] rfl

/-- C5: a status entry whose `dn` differs from the proxy's identifier
leaves the attribute store untouched and triggers no observer notification
and no exception; the same holds when the `dn` matches but the entry's
`type` names no existing attribute. -/
theorem entry_frame (b : Bulb) (fs : List (String × Json)) :
    (∀ v, dictHas fs "type" = true → dictGet fs "dn" = some v →
        pyEqStr v b.uuid = false →
        SengledBulb.processEntry b (.obj fs) = (b, none, none))
  ∧ (∀ v t, dictGet fs "dn" = some v → dictGet fs "type" = some t →
        pyEqStr v b.uuid = true →
        SengledBulb.findMatch t b.attributes = none →
        SengledBulb.processEntry b (.obj fs) = (b, none, none)) := by
  constructor
  · intro v ht hd hne
    simp [SengledBulb.processEntry, pyContains, pyIndexStr, ht,
      dictHas_of_get hd, hd, hne]
  · intro v t hd ht heq hm
    simp [SengledBulb.processEntry, pyContains, pyIndexStr,
      dictHas_of_get ht, dictHas_of_get hd, hd, ht, heq, hm]

/-- Witness for C5 at a concrete bulb: an entry for another device, and an
entry for this device with an unknown attribute name, both leave the store
unchanged and notify nothing. -/
theorem entry_frame_witness :
    SengledBulb.processEntry
        { uuid := "u1", category := "c", typeCode := "T"
          attributes := [{ name := "brightness", value := .str "50" }]
          cb := .assigned true }
        (.obj [("type", .str "brightness"), ("dn", .str "u2")])
      = ({ uuid := "u1", category := "c", typeCode := "T"
           attributes := [{ name := "brightness", value := .str "50" }]
           cb := .assigned true }, none, none)
  ∧ SengledBulb.processEntry
        { uuid := "u1", category := "c", typeCode := "T"
          attributes := [{ name := "brightness", value := .str "50" }]
          cb := .assigned true }
        (.obj [("type", .str "color"), ("dn", .str "u1")])
      = ({ uuid := "u1", category := "c", typeCode := "T"
           attributes := [{ name := "brightness", value := .str "50" }]
           cb := .assigned true }, none, none) := by
  constructor
  · exact (entry_frame _ _).1 (.str "u2") rfl rfl rfl
  · exact (entry_frame _ _).2 (.str "u1") (.str "color") rfl rfl rfl rfl

/-- C9: when `set_attribute_update_callback` was never called, a
well-formed status entry matching the proxy's identifier and an existing
attribute makes the handler raise `AttributeError` on reading the
uninitialized `_attribute_update_callback` field. -/
theorem unset_callback_raises (b : Bulb) (fs : List (String × Json))
    (t v : Json) (i : Nat) (an : String)
    (hcb : b.cb = .unset)
    (hdn : dictGet fs "dn" = some (.str b.uuid))
    (ht : dictGet fs "type" = some t)
    (hv : dictGet fs "value" = some v)
    (hm : SengledBulb.findMatch t b.attributes = some (i, an)) :
    (SengledBulb.update_status b (some (.arr [.obj fs]))).error
      = some .attributeError := by
  simp [SengledBulb.update_status, pyIterate, SengledBulb.processEntries,
    SengledBulb.processEntry, pyContains, pyIndexStr,
    dictHas_of_get ht, dictHas_of_get hdn, hdn, ht, hv, hm, hcb, pyEqStr]

/-- Witness for C9: a freshly constructed bulb (callback never set)
receiving a matching `switch` update raises `AttributeError`. -/
theorem unset_callback_raises_witness :
    (SengledBulb.update_status
        (mkBulb
          { deviceUuid := "u1", category := "wifielement", typeCode := "T"
            attributeList := [{ name := "switch", value := .str "0" }] })
        (some (.arr [.obj
          [("dn", .str "u1"), ("type", .str "switch"),
            ("value", .str "1")]]))).error
      = some .attributeError := by
  exact unset_callback_raises _ _ (.str "switch") (.str "1") 0 "switch"
    rfl rfl rfl rfl rfl

/-- C7: every failure of endpoint resolution (bad HTTP status, missing or
empty `inceptionAddr`) leaves the configured `_mqtt_server` untouched, and
a successful resolution whose URI carries no explicit port defaults the
port to 443. -/
theorem endpoint_resolution (c : SengledClient.State)
    (resp : SengledClient.InfoResp) :
    (resp.statusOk = false → (SengledClient.get_server_info c resp).1 = c)
  ∧ (resp.inceptionAddr = none →
        (SengledClient.get_server_info c resp).1 = c)
  ∧ (resp.inceptionAddr = some "" →
        (SengledClient.get_server_info c resp).1 = c)
  ∧ (∀ addr netloc path,
        c.jsessionId.isSome = true → resp.statusOk = true →
        resp.inceptionAddr = some addr → addr ≠ "" →
        SengledClient.urlparseNetlocPath addr = (netloc, path) →
        netloc.toList.contains ':' = false →
        (SengledClient.get_server_info c resp).1
          = { c with
                mqttServer := { host := netloc, port := 443, path := path } }) := by
  refine ⟨?_, ?_, ?_, ?_⟩
  · intro h
    cases hj : c.jsessionId.isNone <;>
      simp [SengledClient.get_server_info, hj, h]
  · intro h
    cases hj : c.jsessionId.isNone <;>
      cases hs : resp.statusOk <;>
        simp [SengledClient.get_server_info, hj, hs, h]
  · intro h
    cases hj : c.jsessionId.isNone <;>
      cases hs : resp.statusOk <;>
        simp [SengledClient.get_server_info, hj, hs, h]
  · intro addr netloc path hj hs ha hne hup hcol
    have hjn : c.jsessionId.isNone = false := by
      cases hcj : c.jsessionId with
      | none => rw [hcj] at hj; simp at hj
      | some s => simp
    have h2 : ':' ∉ netloc.toList := by simpa using hcol
    have h3 : ':' ∉ netloc.data := h2
    simp [SengledClient.get_server_info, hjn, hs, ha, hne, hup, h3]

/-- Witness for C7: a failed probe keeps the default endpoint, and a
portless URI resolves to port 443. -/
theorem endpoint_resolution_witness :
    (SengledClient.get_server_info
        { jsessionId := some "sess"
          mqttServer :=
            { host := "us-mqtt.cloud.sengled.com", port := 443,
              path := "/mqtt" }
          mqttClientExists := false, devices := [], subscribed := [] }
        { statusOk := false, inceptionAddr := some "wss://a.example.com/x" }).1
      = { jsessionId := some "sess"
          mqttServer :=
            { host := "us-mqtt.cloud.sengled.com", port := 443,
              path := "/mqtt" }
          mqttClientExists := false, devices := [], subscribed := [] }
  ∧ (SengledClient.get_server_info
        { jsessionId := some "sess"
          mqttServer :=
            { host := "us-mqtt.cloud.sengled.com", port := 443,
              path := "/mqtt" }
          mqttClientExists := false, devices := [], subscribed := [] }
        { statusOk := true,
          inceptionAddr := some "wss://mybroker.example.com/mqtt" }).1
      = { jsessionId := some "sess"
          mqttServer :=
            { host := "mybroker.example.com", port := 443, path := "/mqtt" }
          mqttClientExists := false, devices := [], subscribed := [] } := by
  constructor
  · exact (endpoint_resolution _ _).1 rfl
  · exact (endpoint_resolution _ _).2.2.2 "wss://mybroker.example.com/mqtt"
      "mybroker.example.com" "/mqtt" rfl rfl rfl (by simp) rfl rfl

/-- C10: subscribing is atomic with respect to the registry — with no MQTT
client it returns `False` without issuing a request or touching the
registry; on a broker rejection it returns `False` with the registry
unchanged; the `(topic, handler)` entry is recorded exactly when the
subscribe request succeeds. -/
theorem subscribe_atomic (c : SengledClient.State) (brokerOk : String → Bool)
    (topic handler : String) :
    (c.mqttClientExists = false →
        SengledClient.subscribe_mqtt c brokerOk topic handler
          = (c, false, []))
  ∧ (c.mqttClientExists = true → brokerOk topic = false →
        SengledClient.subscribe_mqtt c brokerOk topic handler
          = (c, false, [.subscribeReq topic]))
  ∧ (c.mqttClientExists = true → brokerOk topic = true →
        SengledClient.subscribe_mqtt c brokerOk topic handler
          = ({ c with subscribed :=
                SengledClient.dictInsert c.subscribed topic handler },
              true, [.subscribeReq topic])) := by
  refine ⟨?_, ?_, ?_⟩
  · intro h
    simp [SengledClient.subscribe_mqtt, h]
  · intro h hb
    simp [SengledClient.subscribe_mqtt, h, hb]
  · intro h hb
    simp [SengledClient.subscribe_mqtt, h, hb]

/-- Witness for C10: with no MQTT client the registry stays empty and the
call fails; with a client and a rejecting broker the registry is unchanged;
with an accepting broker the entry is recorded. -/
theorem subscribe_atomic_witness :
    SengledClient.subscribe_mqtt
        { jsessionId := some "s"
          mqttServer := { host := "h", port := 443, path := "/mqtt" }
          mqttClientExists := false, devices := [], subscribed := [] }
        (fun _ => true) "t1" "b1"
      = ({ jsessionId := some "s"
           mqttServer := { host := "h", port := 443, path := "/mqtt" }
           mqttClientExists := false, devices := [], subscribed := [] },
          false, [])
  ∧ SengledClient.subscribe_mqtt
        { jsessionId := some "s"
          mqttServer := { host := "h", port := 443, path := "/mqtt" }
          mqttClientExists := true, devices := [], subscribed := [] }
        (fun _ => false) "t1" "b1"
      = ({ jsessionId := some "s"
           mqttServer := { host := "h", port := 443, path := "/mqtt" }
           mqttClientExists := true, devices := [], subscribed := [] },
          false, [.subscribeReq "t1"])
  ∧ SengledClient.subscribe_mqtt
        { jsessionId := some "s"
          mqttServer := { host := "h", port := 443, path := "/mqtt" }
          mqttClientExists := true, devices := [], subscribed := [] }
        (fun _ => true) "t1" "b1"
      = ({ jsessionId := some "s"
           mqttServer := { host := "h", port := 443, path := "/mqtt" }
           mqttClientExists := true, devices := [],
           subscribed := [("t1", "b1")] },
          true, [.subscribeReq "t1"]) := by
  refine ⟨(subscribe_atomic _ _ _ _).1 rfl,
    (subscribe_atomic _ _ _ _).2.1 rfl rfl, ?_⟩
  have h := (subscribe_atomic
    { jsessionId := some "s"
      mqttServer := { host := "h", port := 443, path := "/mqtt" }
      mqttClientExists := true, devices := [], subscribed := [] }
    (fun _ => true) "t1" "b1").2.2 rfl rfl
  simpa [SengledClient.dictInsert] using h

theorem regGet_isSome_of_mem {d : List (String × String)} {t : String}
    (h : t ∈ d.map Prod.fst) : ∃ v, SengledClient.regGet d t = some v := by
  induction d with
  | nil => simp at h
  | cons p rest ih =>
    by_cases hk : p.1 = t
    · exact ⟨p.2, by simp [SengledClient.regGet, hk]⟩
    · simp only [List.map_cons, List.mem_cons] at h
      rcases h with h | h

      · exact absurd h.symm hk
      · obtain ⟨v, hv⟩ := ih h
        exact ⟨v, by simp [SengledClient.regGet, hk, hv]⟩

theorem regGet_any {d : List (String × String)} {t v : String}
    (hg : SengledClient.regGet d t = some v) :
    d.any (fun p => p.1 = t) = true := by
  induction d with
  | nil => simp [SengledClient.regGet] at hg
  | cons p rest ih =>
    by_cases hk : p.1 = t
    · simp [List.any_cons, hk]
    · simp only [SengledClient.regGet, if_neg hk] at hg
      simp [List.any_cons, hk, ih hg]

theorem mapInsert_id {rest : List (String × String)} {t v : String}
    (hnot : t ∉ rest.map Prod.fst) :
    rest.map (fun q => if q.1 = t then (t, v) else q) = rest := by
  induction rest with
  | nil => rfl
  | cons q qs ih =>
    simp only [List.map_cons, List.mem_cons, not_or] at hnot
    rw [List.map_cons, if_neg (fun hq => hnot.1 hq.symm), ih hnot.2]

theorem dictInsert_self {d : List (String × String)} {t v : String}
    (hnd : (d.map Prod.fst).Nodup)
    (hg : SengledClient.regGet d t = some v) :
    SengledClient.dictInsert d t v = d := by
  have hmap : d.map (fun q => if q.1 = t then (t, v) else q) = d := by
    induction d with
    | nil => rfl
    | cons p rest ih =>
      simp only [List.map_cons, List.nodup_cons] at hnd
      by_cases hk : p.1 = t
      · have hp2 : p.2 = v := by
          simp only [SengledClient.regGet, if_pos hk] at hg
          exact Option.some.inj hg
        have hhead : (if p.1 = t then (t, v) else p) = p := by
          rw [if_pos hk, ← hk, ← hp2]
        rw [List.map_cons, hhead, mapInsert_id (hk ▸ hnd.1)]
      · simp only [SengledClient.regGet, if_neg hk] at hg
        rw [List.map_cons, if_neg hk, ih hnd.2 hg]
  simp [SengledClient.dictInsert, regGet_any hg, hmap]

theorem resubLoop_id (brokerOk : String → Bool) (ts : List String)
    (c : SengledClient.State)
    (hcl : c.mqttClientExists = true)
    (hnd : (c.subscribed.map Prod.fst).Nodup)
    (hts : ∀ t ∈ ts, t ∈ c.subscribed.map Prod.fst) :
    SengledClient.resubLoop brokerOk ts c
      = (c, ts.map NetCall.subscribeReq) := by
  obtain ⟨j, ms, mc, dv, sb⟩ := c
  simp only at hcl hnd hts
  subst hcl
  induction ts with
  | nil => rfl
  | cons t ts ih =>
    obtain ⟨v, hg⟩ := regGet_isSome_of_mem (hts t (by simp))
    have hsub : SengledClient.subscribe_mqtt ⟨j, ms, true, dv, sb⟩ brokerOk t v
        = (⟨j, ms, true, dv, sb⟩, brokerOk t, [.subscribeReq t]) := by
      cases hb : brokerOk t
      · simp [SengledClient.subscribe_mqtt, hb]
      · simp [SengledClient.subscribe_mqtt, hb, dictInsert_self hnd hg]
    have hrest := ih (fun u hu => hts u (by simp [hu]))
    simp [SengledClient.resubLoop, hg, hsub, hrest]

/-- C6: after a completed `reconnect` (`_reinitialize_mqtt` with a live
client and session), every registry entry has been re-issued as exactly one
subscribe request, the registry afterwards holds exactly the same entries,
and iterating reconnects any number of times never changes the state. -/
theorem reconnect_resubscribes (c : SengledClient.State)
    (brokerOk : String → Bool)
    (hcl : c.mqttClientExists = true)
    (hj : c.jsessionId.isSome = true)
    (hnd : (c.subscribed.map Prod.fst).Nodup) :
    (SengledClient.reinitialize_mqtt c brokerOk).1 = c
  ∧ (SengledClient.reinitialize_mqtt c brokerOk).2.2
      = .mqttReconnect :: c.subscribed.map (fun p => .subscribeReq p.1)
  ∧ (∀ p ∈ c.subscribed,
        (SengledClient.reinitialize_mqtt c brokerOk).2.2.count
            (.subscribeReq p.1) = 1)
  ∧ (∀ n, SengledClient.reinitN c brokerOk n = c) := by
  have hjn : c.jsessionId.isNone = false := by
    cases hcj : c.jsessionId with
    | none => rw [hcj] at hj; simp at hj
    | some s => simp
  have hloop := resubLoop_id brokerOk (c.subscribed.map Prod.fst) c hcl hnd
    (fun t ht => ht)
  have hre : SengledClient.reinitialize_mqtt c brokerOk
      = (c, true,
          .mqttReconnect
            :: c.subscribed.map (fun p => NetCall.subscribeReq p.1)) := by
    simp [SengledClient.reinitialize_mqtt, hcl, hjn, hloop, List.map_map,
      Function.comp]
  refine ⟨by rw [hre], by rw [hre], ?_, ?_⟩
  · intro p hp
    rw [hre]
    have hne : NetCall.mqttReconnect ≠ NetCall.subscribeReq p.1 := by simp
    rw [List.count_cons_of_ne (fun h => hne h.symm)]
    have hmm : c.subscribed.map (fun p => NetCall.subscribeReq p.1)
        = (c.subscribed.map Prod.fst).map NetCall.subscribeReq := by
      rw [List.map_map]
      rfl
    rw [hmm]
    have hinj : Function.Injective NetCall.subscribeReq := by
      intro a b hab
      cases hab
      rfl
    rw [List.count_map_of_injective _ _ hinj]
    exact List.count_eq_one_of_mem hnd (List.mem_map_of_mem Prod.fst hp)
  · intro n
    induction n with
    | zero => rfl
    | succ m ihm =>
      show (SengledClient.reinitialize_mqtt
        (SengledClient.reinitN c brokerOk m) brokerOk).1 = c
      rw [ihm, hre]

/-- Witness for C6: a client with two registered topics reconnects,
re-issues each exactly once, and keeps its registry verbatim. -/
theorem reconnect_resubscribes_witness :
    (SengledClient.reinitialize_mqtt
        { jsessionId := some "s"
          mqttServer := { host := "h", port := 443, path := "/mqtt" }
          mqttClientExists := true, devices := []
          subscribed := [("wifielement/a/status", "a"),
            ("wifielement/b/status", "b")] }
        (fun _ => true)).1
      = { jsessionId := some "s"
          mqttServer := { host := "h", port := 443, path := "/mqtt" }
          mqttClientExists := true, devices := []
          subscribed := [("wifielement/a/status", "a"),
            ("wifielement/b/status", "b")] }
  ∧ (SengledClient.reinitialize_mqtt
        { jsessionId := some "s"
          mqttServer := { host := "h", port := 443, path := "/mqtt" }
          mqttClientExists := true, devices := []
          subscribed := [("wifielement/a/status", "a"),
            ("wifielement/b/status", "b")] }
        (fun _ => true)).2.2
      = [.mqttReconnect, .subscribeReq "wifielement/a/status",
          .subscribeReq "wifielement/b/status"] := by
  constructor
  · exact (reconnect_resubscribes _ _ rfl (by simp) (by simp)).1
  · have h := (reconnect_resubscribes
      { jsessionId := some "s"
        mqttServer := { host := "h", port := 443, path := "/mqtt" }
        mqttClientExists := true, devices := []
        subscribed := [("wifielement/a/status", "a"),
          ("wifielement/b/status", "b")] }
      (fun _ => true) rfl (by simp) (by simp)).2.1
    simpa using h

theorem subscribe_devices (c : SengledClient.State) (bo : String → Bool)
    (t v : String) :
    (SengledClient.subscribe_mqtt c bo t v).1.devices = c.devices := by
  unfold SengledClient.subscribe_mqtt
  split
  · rfl
  · split <;> rfl

theorem addDevice_devices (c : SengledClient.State) (bo : String → Bool)
    (d : DevRecord) :
    (SengledClient.addDevice c bo d).1.devices
      = c.devices ++ [mkBulb d] := by
  unfold SengledClient.addDevice
  simp [subscribe_devices]

theorem deviceLoop_inv (bo : String → Bool) (ds : List DevRecord) :
    ∀ c : SengledClient.State,
      (SengledClient.uuids c.devices).Nodup →
      (SengledClient.uuids
          (SengledClient.deviceLoop bo c ds).1.devices).Nodup
      ∧ c.devices <+: (SengledClient.deviceLoop bo c ds).1.devices := by
  induction ds with
  | nil => exact fun c h => ⟨h, List.prefix_refl _⟩
  | cons d ds ih =>
    intro c h
    by_cases hf : c.devices.any (fun dev => dev.uuid = d.deviceUuid) = true
    · simp only [SengledClient.deviceLoop, hf, if_pos]
      exact ih c h
    · have hnotin : d.deviceUuid ∉ SengledClient.uuids c.devices := by
        simp only [List.any_eq_true, decide_eq_true_eq, not_exists] at hf
        simp only [SengledClient.uuids, List.mem_map, not_exists]
        intro b
        intro hb
        exact absurd hb.2 (by
          intro hu
          exact hf b ⟨hb.1, hu⟩)
      have hdev := addDevice_devices c bo d
      have hnd2 : (SengledClient.uuids
          ((SengledClient.addDevice c bo d).1.devices)).Nodup := by
        rw [hdev]
        simp only [SengledClient.uuids, List.map_append, List.map_cons,
          List.map_nil]
        rw [List.nodup_append]
        refine ⟨h, List.nodup_singleton _, ?_⟩
        intro a ha hb
        simp only [mkBulb, List.mem_singleton] at hb
        exact hnotin (hb ▸ ha)
      obtain ⟨h1, h2⟩ := ih (SengledClient.addDevice c bo d).1 hnd2
      have hstep : SengledClient.deviceLoop bo c (d :: ds)
          = ((SengledClient.deviceLoop bo
              (SengledClient.addDevice c bo d).1 ds).1,
             (SengledClient.addDevice c bo d).2
               ++ (SengledClient.deviceLoop bo
                   (SengledClient.addDevice c bo d).1 ds).2) := by
        simp [SengledClient.deviceLoop, hf]
      refine ⟨by rw [hstep]; exact h1, ?_⟩
      rw [hstep]
      exact ((List.prefix_append c.devices [mkBulb d]).trans
        (hdev ▸ h2 : (c.devices ++ [mkBulb d]) <+: _))

theorem get_devices_inv (c : SengledClient.State) (force : Bool)
    (bo : String → Bool) (resp : SengledClient.DirResp)
    (h : (SengledClient.uuids c.devices).Nodup) :
    (SengledClient.uuids
        (SengledClient.get_devices c force bo resp).1.devices).Nodup
  ∧ c.devices <+: (SengledClient.get_devices c force bo resp).1.devices := by
  obtain ⟨st, dl⟩ := resp
  by_cases h1 : c.jsessionId.isNone
  · constructor <;> simp [SengledClient.get_devices, h1, h]
  · by_cases h2 : (c.devices.length > 0 && !force) = true
    · constructor <;> simp [SengledClient.get_devices, h1, h2, h]
    · by_cases h3 : st = true
      · cases dl with
        | none =>
          constructor <;> simp [SengledClient.get_devices, h1, h2, h3, h]
        | some ds =>
          cases ds with
          | nil =>
            constructor <;> simp [SengledClient.get_devices, h1, h2, h3, h]
          | cons d rest =>
            have hdl := deviceLoop_inv bo (d :: rest) c h
            constructor <;>
              simp only [SengledClient.get_devices, h1, h2, h3,
                Bool.false_eq_true, if_false, if_true] <;>
              simp [hdl.1, hdl.2]
      · have h3f : st = false := by simpa using h3
        constructor <;> simp [SengledClient.get_devices, h1, h2, h3f, h]

theorem refreshSeq_inv (bo : String → Bool)
    (seq : List (Bool × SengledClient.DirResp)) :
    ∀ c : SengledClient.State,
      (SengledClient.uuids c.devices).Nodup →
      (SengledClient.uuids
          (SengledClient.refreshSeq bo c seq).devices).Nodup
      ∧ c.devices <+: (SengledClient.refreshSeq bo c seq).devices := by
  induction seq with
  | nil => exact fun c h => ⟨h, List.prefix_refl _⟩
  | cons p rest ih =>
    intro c h
    obtain ⟨f, r⟩ := p
    have hstep := get_devices_inv c f bo r h
    have hrest := ih (SengledClient.get_devices c f bo r).1 hstep.1
    exact ⟨hrest.1, hstep.2.trans hrest.2⟩

/-- C8: for any sequence of directory refreshes (forced or not, with any
server responses), the cached proxy list keeps at most one proxy per device
identifier (its identifier list stays duplicate-free), and no proxy is ever
removed (the prior list is a prefix of every later one). -/
theorem directory_unique_and_persistent (c : SengledClient.State)
    (bo : String → Bool)
    (h : (SengledClient.uuids c.devices).Nodup) :
    (∀ (force : Bool) (resp : SengledClient.DirResp),
        (SengledClient.uuids
            (SengledClient.get_devices c force bo resp).1.devices).Nodup
      ∧ c.devices <+: (SengledClient.get_devices c force bo resp).1.devices)
  ∧ (∀ seq : List (Bool × SengledClient.DirResp),
        (SengledClient.uuids
            (SengledClient.refreshSeq bo c seq).devices).Nodup
      ∧ c.devices <+: (SengledClient.refreshSeq bo c seq).devices) := by
  exact ⟨fun force resp => get_devices_inv c force bo resp h,
    fun seq => refreshSeq_inv bo seq c h⟩

/-- Witness for C8: two consecutive forced refreshes, each answering the
same two records with one shared identifier, leave a cache whose identifier
list is duplicate-free, with the (empty) prior cache a prefix. -/
theorem directory_unique_and_persistent_witness :
    (SengledClient.uuids
        (SengledClient.refreshSeq (fun _ => true)
          { jsessionId := some "s"
            mqttServer := { host := "h", port := 443, path := "/mqtt" }
            mqttClientExists := true, devices := [], subscribed := [] }
          [(true,
              { statusOk := true
                deviceList := some
                  [{ deviceUuid := "u1", category := "wifielement",
                     typeCode := "T", attributeList := [] },
                   { deviceUuid := "u1", category := "wifielement",
                     typeCode := "T", attributeList := [] }] }),
            (true,
              { statusOk := true
                deviceList := some
                  [{ deviceUuid := "u1", category := "wifielement",
                     typeCode := "T", attributeList := [] },
                   { deviceUuid := "u1", category := "wifielement",
                     typeCode := "T", attributeList := [] }] })]).devices).Nodup
  ∧ ([] : List Bulb) <+:
      (SengledClient.refreshSeq (fun _ => true)
        { jsessionId := some "s"
          mqttServer := { host := "h", port := 443, path := "/mqtt" }
          mqttClientExists := true, devices := [], subscribed := [] }
        [(true,
            { statusOk := true
              deviceList := some
                [{ deviceUuid := "u1", category := "wifielement",
                   typeCode := "T", attributeList := [] },
                 { deviceUuid := "u1", category := "wifielement",
                   typeCode := "T", attributeList := [] }] }),
          (true,
            { statusOk := true
              deviceList := some
                [{ deviceUuid := "u1", category := "wifielement",
                   typeCode := "T", attributeList := [] },
                 { deviceUuid := "u1", category := "wifielement",
                   typeCode := "T", attributeList := [] }] })]).devices := by
  exact (directory_unique_and_persistent _ (fun _ => true)
    (by simp [SengledClient.uuids])).2 _

end Sengled
